import Mathlib

/-!
Verification development for the mochi-mcp repository.

We give a shallow embedding of the response-normalization logic of
`src/mochi_mcp/api.py` (`MochiClient._parse_paginated`,
`MochiClient._parse_item`) and of the resource-catalog pagination loop and
tool dispatch of `src/mochi_mcp/server.py` (`list_resources`, `call_tool`,
`_deck_identifier`, `_deck_to_resource`, `_require_str`, `_require_mapping`,
`_optional_str`, `_optional_int`), and prove the specified properties about
these definitions.

JSON values are modelled by the inductive type `JSON`; Python `None` is
`JSON.null`, Python dictionaries are association lists (first binding wins,
mirroring a duplicate-free parsed JSON object), and Python truthiness is the
function `truthy`.
-/

set_option maxRecDepth 100000

namespace MochiMcp

/-- A JSON value as produced by `response.json()` in Python.  Numbers are
modelled as integers (no claim depends on floats). -/
inductive JSON where
  | null : JSON
  | bool : Bool → JSON
  | num : Int → JSON
  | str : String → JSON
  | arr : List JSON → JSON
  | obj : List (String × JSON) → JSON

/-- Python truthiness of a JSON value (`bool(x)`): `None`, `False`, `0`,
`""`, `[]` and `{}` are falsy, everything else is truthy. -/
def truthy : JSON → Bool
  | .null => false
  | .bool b => b
  | .num n => n != 0
  | .str s => !s.isEmpty
  | .arr xs => !xs.isEmpty
  | .obj fs => !fs.isEmpty

/-- Python dict lookup `d.get(k)`: the bound value, or `None` when the key is
absent. -/
def pyGet (fs : List (String × JSON)) (k : String) : JSON :=
  (List.lookup k fs).getD .null

/-- Test `isinstance(x, Mapping)` for a JSON value. -/
def isObj : JSON → Bool
  | .obj _ => true
  | _ => false

/-- The result type `PaginatedResult` of `api.py`: a list of item objects and
an optional continuation cursor. -/
structure PaginatedResult where
  items : List JSON
  next_cursor : Option String := none

/-- Container selection of `_parse_paginated` (api.py lines 176-180): if the
top-level object has a `data` field bound to an object, that nested object is
the container, otherwise the top-level object itself is. -/
def containerOf (fs : List (String × JSON)) : List (String × JSON) :=
  match List.lookup "data" fs with
  | some (.obj dfs) => dfs
  | _ => fs

/-- Item extraction of `_parse_paginated` (api.py lines 182-185): the array
under `collection_name` if present and list-typed, else the array under
`items` if present and list-typed, else no items; non-object elements of the
chosen array are dropped. -/
def itemsOf (container : List (String × JSON)) (collectionName : String) : List JSON :=
  match List.lookup collectionName container with
  | some (.arr xs) => xs.filter isObj
  | _ =>
    match List.lookup "items" container with
    | some (.arr xs) => xs.filter isObj
    | _ => []

/-- Cursor extraction of `_parse_paginated` (api.py lines 187-189):
`cursor_value = container.get("nextCursor") or container.get("cursor")`,
then the cursor is set only when `cursor_value` is a non-empty string.
The Python `or` picks `nextCursor`'s value whenever it is truthy, and falls
back to `cursor`'s value otherwise. -/
def codeNextCursor (container : List (String × JSON)) : Option String :=
  let cursorValue :=
    if truthy (pyGet container "nextCursor") then pyGet container "nextCursor"
    else pyGet container "cursor"
  match cursorValue with
  | .str s => if s.isEmpty then none else some s
  | _ => none

/-- Function `MochiClient._parse_paginated` (api.py lines 166-191), the collection-page
normalizer `normalize_page` of the spec. -/
def parsePaginated (data : JSON) (collectionName : String) : PaginatedResult :=
  match data with
  | .arr xs => ⟨xs.filter isObj, none⟩
  | .obj fs =>
    let container := containerOf fs
    ⟨itemsOf container collectionName, codeNextCursor container⟩
  | _ => ⟨[], none⟩

/-- The exception `MochiAPIError` of `api.py`, carrying its message. -/
inductive MochiAPIErr where
  | api : String → MochiAPIErr
deriving DecidableEq, Repr

/-- Function `MochiClient._parse_item` (api.py lines 193-205), the single-item
normalizer `normalize_item` of the spec, at the level of JSON values
(object identity is treated separately by the heap model below).
A mapping input always yields an item via one of the three branches
(nested under the key, nested under `data`, or the whole object); a
non-mapping input raises `MochiAPIError`. -/
def parseItem (data : JSON) (key : String) : Except MochiAPIErr JSON :=
  match data with
  | .obj fs =>
    match List.lookup key fs with
    | some (.obj inner) => .ok (.obj inner)
    | _ =>
      match List.lookup "data" fs with
      | some (.obj dfs) =>
        match List.lookup key dfs with
        | some (.obj inner) => .ok (.obj inner)
        | _ => .ok (.obj dfs)
      | _ => .ok (.obj fs)
  | _ => .error (.api "Unexpected response format from Mochi API")

/-! ## Heap model for `_parse_item`

The spec's claim about `normalize_item` returning a *shallow copy* is a
statement about Python object identity, so we refine `_parse_item` over an
explicit heap: every Python dict is an address into the heap, a dict field
holds either a scalar payload or a reference to another dict, and Python's
`dict(...)` constructor is `Heap.alloc` of the field list found at the
copied address. -/

/-- A Python value in the heap model: a non-dict payload, or a reference to
a dict living in the heap. -/
inductive HVal where
  | prim : JSON → HVal
  | ref : Nat → HVal

/-- The heap: dict number `a` is the association list `objs.get? a`. -/
structure Heap where
  objs : List (List (String × HVal))

/-- Dereference a dict address. -/
def Heap.find (h : Heap) (a : Nat) : Option (List (String × HVal)) :=
  h.objs.get? a

/-- Python `dict(d)`: allocate a fresh dict whose top-level bindings are
those of `d` (a shallow copy — nested references are shared). -/
def Heap.alloc (h : Heap) (fields : List (String × HVal)) : Heap × Nat :=
  (⟨h.objs ++ [fields]⟩, h.objs.length)

/-- Python `d[k] = v` on a single dict: overwrite the binding of `k` when
present, append it otherwise. -/
def dictSetH (d : List (String × HVal)) (k : String) (v : HVal) :
    List (String × HVal) :=
  if d.any (fun kv => kv.1 = k) then d.map (fun kv => if kv.1 = k then (k, v) else kv)
  else d ++ [(k, v)]

/-- Mutate one field of the dict at address `a` (model of a downstream
`result[k] = v` mutation). -/
def Heap.setField (h : Heap) (a : Nat) (k : String) (v : HVal) : Heap :=
  ⟨h.objs.set a (dictSetH ((h.objs.get? a).getD []) k v)⟩

/-- Function `MochiClient._parse_item` over the heap model: every `return dict(...)`
of the source becomes an allocation of a fresh address. -/
def parseItemH (h : Heap) (raw : HVal) (key : String) :
    Except MochiAPIErr (Heap × Nat) :=
  match raw with
  | .ref a =>
    let fs := (h.find a).getD []
    match List.lookup key fs with
    | some (.ref b) => .ok (h.alloc ((h.find b).getD []))
    | _ =>
      match List.lookup "data" fs with
      | some (.ref d) =>
        let dfs := (h.find d).getD []
        match List.lookup key dfs with
        | some (.ref c) => .ok (h.alloc ((h.find c).getD []))
        | _ => .ok (h.alloc dfs)
      | _ => .ok (h.alloc fs)
  | .prim _ => .error (.api "Unexpected response format from Mochi API")

/-! ## Server-side definitions (`server.py`) -/

mutual

/-- Python `repr` of a JSON value, as used by `str()` on non-string values
(string escaping edge cases are not needed by any claim). -/
def pyRepr : JSON → String
  | .null => "None"
  | .bool true => "True"
  | .bool false => "False"
  | .num n => toString n
  | .str s => "\x27" ++ s ++ "\x27"
  | .arr xs => "[" ++ pyReprList xs ++ "]"
  | .obj fs => "\x7b" ++ pyReprFields fs ++ "\x7d"

/-- Comma-separated `repr` of the elements of a Python list. -/
def pyReprList : List JSON → String
  | [] => ""
  | [x] => pyRepr x
  | x :: xs => pyRepr x ++ ", " ++ pyReprList xs

/-- Comma-separated `repr` of the bindings of a Python dict. -/
def pyReprFields : List (String × JSON) → String
  | [] => ""
  | [(k, v)] => "\x27" ++ k ++ "\x27: " ++ pyRepr v
  | (k, v) :: fs => "\x27" ++ k ++ "\x27: " ++ pyRepr v ++ ", " ++ pyReprFields fs

end

/-- Python `str(x)`: a string is returned as itself, anything else via its
`repr`-style rendering. -/
def pyStr : JSON → String
  | .str s => s
  | v => pyRepr v

/-- One iteration of the key loop in `_deck_identifier` (server.py lines
350-355): a non-empty string is returned as is, an integer (Python `bool`
included, being an `int` subclass) is coerced with `str`, anything else
moves on to the next key. -/
def identFromVal : JSON → Option String
  | .str s => if s.isEmpty then none else some s
  | .bool b => some (if b then "True" else "False")
  | .num n => some (toString n)
  | _ => none

/-- Function `_deck_identifier` (server.py lines 349-356): the first usable value
among the `id`, `uuid` and `slug` fields.  The Python function is only ever
applied to mappings; a non-object argument yields no identifier. -/
def deckIdentifier (deck : JSON) : Option String :=
  match deck with
  | .obj fs =>
    match identFromVal (pyGet fs "id") with
    | some s => some s
    | none =>
      match identFromVal (pyGet fs "uuid") with
      | some s => some s
      | none => identFromVal (pyGet fs "slug")
  | _ => none

/-- Constant `_DECK_URI_PREFIX` of server.py. -/
def deckUriBase : String := "mochi://deck/"

/-- Constant `_MAX_DECK_RESOURCES` of server.py. -/
def MAX_DECK_RESOURCES : Nat := 500

/-- The fields of an MCP `types.Resource` that server.py populates;
`annotated` records whether the `Annotations(priority=0.5)` object was
attached. -/
structure Resource where
  name : String
  uri : String
  description : Option String
  annotated : Bool
deriving DecidableEq, Repr

/-- Function `_deck_to_resource` (server.py lines 359-371) fused with its guard
`if _deck_identifier(deck):` from the `list_resources` loop: `none` exactly
when the deck has no identifier (the case in which the source function would
raise, and which the guard prevents). -/
def deckToResource (deck : JSON) : Option Resource :=
  match deckIdentifier deck with
  | none => none
  | some identifier =>
    let fs := match deck with | .obj fs => fs | _ => []
    let nameV := pyGet fs "name"
    let titleV := pyGet fs "title"
    let nameSrc := if truthy nameV then nameV else if truthy titleV then titleV
      else .str identifier
    let descV := pyGet fs "description"
    some { name := pyStr nameSrc
           uri := deckUriBase ++ identifier
           description := match descV with | .str s => some s | _ => none
           annotated := truthy descV }

/-- Python `not page.next_cursor` on an optional string: true for `None` and
for the empty string. -/
def cursorFalsy : Option String → Bool
  | none => true
  | some s => s.isEmpty

/-- The `while True` pagination loop of `list_resources` (server.py lines
54-61).  The upstream client is a stub `pages` giving the result of the
`k`-th `list_decks` call (a page or a raised `MochiAPIError`); `fuel` bounds
the number of iterations we unfold, with `none` meaning the loop is still
running after `fuel` requests.  On a normal exit it returns the accumulated
resources together with the number of requests issued. -/
def listResourcesLoop (pages : Nat → Except MochiAPIErr PaginatedResult) :
    Nat → Nat → List Resource → Option (Except MochiAPIErr (List Resource × Nat))
  | 0, _, _ => none
  | fuel + 1, k, acc =>
    match pages k with
    | .error e => some (.error e)
    | .ok page =>
      let acc := acc ++ page.items.filterMap deckToResource
      if cursorFalsy page.next_cursor || MAX_DECK_RESOURCES ≤ acc.length then
        some (.ok (acc, k + 1))
      else listResourcesLoop pages fuel (k + 1) acc

/-- Function `list_resources` (server.py lines 48-63): run the pagination loop from
an empty accumulator and truncate the result to `_MAX_DECK_RESOURCES`. -/
def listResources (pages : Nat → Except MochiAPIErr PaginatedResult)
    (fuel : Nat) : Option (Except MochiAPIErr (List Resource)) :=
  match listResourcesLoop pages fuel 0 [] with
  | none => none
  | some (.error e) => some (.error e)
  | some (.ok (rs, _)) => some (.ok (rs.take MAX_DECK_RESOURCES))

/-! ## Tool dispatch (`call_tool` of server.py)

`call_tool` validates its arguments and then performs at most one upstream
client call.  We model an invocation as an `Except`: an `.ok` result carries
the one upstream request the handler issues (requests are only issued in the
`.ok` case, after every validation of the branch has succeeded, exactly as
in the source where the `await client....` expression follows the
`_require_*` calls), and an `.error` result is an exception raised before
any upstream request. -/

/-- Errors raised by `call_tool` before reaching the upstream client:
`validation` is the `ValueError` of `_require_str` / `_require_mapping` /
`_optional_int` (carrying the offending field), `unknownTool` is the
`MochiAPIError(f"Unknown tool: ...")`. -/
inductive ToolError where
  | validation : String → ToolError
  | unknownTool : String → ToolError
deriving DecidableEq, Repr

/-- The single upstream client call a `call_tool` branch issues. -/
inductive UpstreamCall where
  | listDecks : Option String → Option Int → UpstreamCall
  | getDeck : String → UpstreamCall
  | listNotes : Option String → Option String → Option Int → Option String → UpstreamCall
  | getNote : String → UpstreamCall
  | createDeck : List (String × JSON) → UpstreamCall
  | updateDeck : String → List (String × JSON) → UpstreamCall
  | deleteDeck : String → UpstreamCall
  | createNote : List (String × JSON) → UpstreamCall
  | updateNote : String → List (String × JSON) → UpstreamCall
  | deleteNote : String → UpstreamCall

/-- Function `_require_str` (server.py lines 399-405): a non-empty string is accepted,
an integer (Python `bool` included) is coerced with `str`, everything else —
missing field, `None`, empty string, list, object — raises `ValueError`. -/
def require_str (args : List (String × JSON)) (field : String) :
    Except ToolError String :=
  match pyGet args field with
  | .str s => if s.isEmpty then .error (.validation field) else .ok s
  | .bool b => .ok (if b then "True" else "False")
  | .num n => .ok (toString n)
  | _ => .error (.validation field)

/-- Function `_require_mapping` (server.py lines 408-412): a mapping is shallow-copied
with `dict(value)`, everything else raises `ValueError`. -/
def require_mapping (args : List (String × JSON)) (field : String) :
    Except ToolError (List (String × JSON)) :=
  match pyGet args field with
  | .obj fs => .ok fs
  | _ => .error (.validation field)

/-- Function `_optional_str` (server.py lines 384-385):
`str(value) if isinstance(value, (str, int)) and value != "" else None`. -/
def optional_str (v : JSON) : Option String :=
  match v with
  | .str s => if s.isEmpty then none else some s
  | .bool b => some (if b then "True" else "False")
  | .num n => some (toString n)
  | _ => none

/-- Function `_optional_int` (server.py lines 388-396): an integer passes through
(Python `bool` being an `int`), a string with non-blank content is parsed
with `int(...)` (raising `ValueError` when unparsable), everything else
yields `None`. -/
def optional_int (v : JSON) : Except ToolError (Option Int) :=
  match v with
  | .bool b => .ok (some (if b then 1 else 0))
  | .num n => .ok (some n)
  | .str s =>
    if s.trim.isEmpty then .ok none
    else
      match s.trim.toInt? with
      | some n => .ok (some n)
      | none => .error (.validation "limit")
  | _ => .ok none

/-- Python `payload[k] = v` / one step of `dict.update`: overwrite an
existing binding in place, append a new one. -/
def dictSet (d : List (String × JSON)) (k : String) (v : JSON) :
    List (String × JSON) :=
  if d.any (fun kv => kv.1 = k) then d.map (fun kv => if kv.1 = k then (k, v) else kv)
  else d ++ [(k, v)]

/-- Python `payload.update(m)`: fold `dictSet` over the bindings of `m`. -/
def dictUpdate (d m : List (String × JSON)) : List (String × JSON) :=
  m.foldl (fun acc kv => dictSet acc kv.1 kv.2) d

/-- Function `call_tool` (server.py lines 268-336).  The read-only tools are
dispatched first; when `read_only` is set every other name — the six write
tools included — is refused with the "Unknown tool" `MochiAPIError` before
any validation or upstream call; otherwise the write tools are dispatched
and a still-unknown name is refused the same way. -/
def callTool (readOnly : Bool) (toolName : String)
    (args : List (String × JSON)) : Except ToolError UpstreamCall :=
  if toolName = "list_decks" then do
    let lim ← optional_int (pyGet args "limit")
    .ok (.listDecks (optional_str (pyGet args "cursor")) lim)
  else if toolName = "get_deck" then do
    let deckId ← require_str args "deck_id"
    .ok (.getDeck deckId)
  else if toolName = "list_notes" then do
    let lim ← optional_int (pyGet args "limit")
    .ok (.listNotes (optional_str (pyGet args "deck_id"))
      (optional_str (pyGet args "cursor")) lim (optional_str (pyGet args "query")))
  else if toolName = "get_note" then do
    let noteId ← require_str args "note_id"
    .ok (.getNote noteId)
  else if readOnly then .error (.unknownTool toolName)
  else if toolName = "create_deck" then do
    let nm ← require_str args "name"
    let p0 : List (String × JSON) := [("name", .str nm)]
    let p1 := match optional_str (pyGet args "description") with
      | some d => dictSet p0 "description" (.str d)
      | none => p0
    let p2 := match optional_str (pyGet args "parent_deck_id") with
      | some p => dictSet p1 "parentDeckId" (.str p)
      | none => p1
    let p3 ← if (List.lookup "fields" args).isSome then do
        let m ← require_mapping args "fields"
        pure (dictUpdate p2 m)
      else pure p2
    .ok (.createDeck p3)
  else if toolName = "update_deck" then do
    let deckId ← require_str args "deck_id"
    let fields ← require_mapping args "fields"
    .ok (.updateDeck deckId fields)
  else if toolName = "delete_deck" then do
    let deckId ← require_str args "deck_id"
    .ok (.deleteDeck deckId)
  else if toolName = "create_note" then do
    let deckId ← require_str args "deck_id"
    let fields ← require_mapping args "fields"
    .ok (.createNote (dictSet fields "deckId" (.str deckId)))
  else if toolName = "update_note" then do
    let noteId ← require_str args "note_id"
    let fields ← require_mapping args "fields"
    .ok (.updateNote noteId fields)
  else if toolName = "delete_note" then do
    let noteId ← require_str args "note_id"
    .ok (.deleteNote noteId)
  else .error (.unknownTool toolName)

/-! ## Specification-side comparison definitions -/

/-- Reading of the `cursor` field demanded by the spec sentence behind C1:
the value of `cursor` when it is a non-empty string, otherwise no cursor. -/
def specCursorField (container : List (String × JSON)) : Option String :=
  match List.lookup "cursor" container with
  | some (.str s) => if s.isEmpty then none else some s
  | _ => none

/-- Cursor rule stated by claim C1: the value of `nextCursor` when it is a
non-empty string; in every other case (wrong type or empty string) fall back
to the `cursor` field, itself used only when a non-empty string. -/
def specNextCursor (container : List (String × JSON)) : Option String :=
  match List.lookup "nextCursor" container with
  | some (.str s) => if s.isEmpty then specCursorField container else some s
  | _ => specCursorField container

/-- Amended cursor rule (what the code actually implements): the Python `or`
chooses the `nextCursor` value whenever it is truthy — so a truthy non-string
`nextCursor` suppresses the fallback — and falls back to the `cursor` value
otherwise; the chosen value yields a cursor only when it is a non-empty
string. -/
def amendedNextCursor (container : List (String × JSON)) : Option String :=
  if truthy (pyGet container "nextCursor") then
    match pyGet container "nextCursor" with
    | .str s => some s
    | _ => none
  else
    match pyGet container "cursor" with
    | .str s => if s.isEmpty then none else some s
    | _ => none

/-- Test for a scalar (non-array, non-object) JSON value. -/
def isScalar : JSON → Bool
  | .null => true
  | .bool _ => true
  | .num _ => true
  | .str _ => true
  | _ => false

/-- Test whether `key` is bound to a JSON array at the top level of an
object. -/
def boundToArray (fs : List (String × JSON)) (key : String) : Bool :=
  match List.lookup key fs with
  | some (.arr _) => true
  | _ => false

/-- Request count of a finished pagination loop (the `k` at which the loop
broke, i.e. how many `list_decks` calls were issued). -/
def requestCount : Option (Except MochiAPIErr (List Resource × Nat)) → Option Nat
  | some (.ok (_, n)) => some n
  | _ => none

/-- Stop signal carried by a single upstream reply: a raised error, or a page
whose cursor is absent (or empty), both of which end the pagination loop as
soon as that reply is received. -/
def stopSignal : Except MochiAPIErr PaginatedResult → Prop
  | .error _ => True
  | .ok page => cursorFalsy page.next_cursor = true

/-- Number of catalog entries a single upstream reply contributes: its items
that have a resolvable identifier (an error contributes nothing, the loop
having aborted). -/
def pageEntries : Except MochiAPIErr PaginatedResult → Nat
  | .error _ => 0
  | .ok page => (page.items.filterMap deckToResource).length

/-- Total identifiable entries contributed by replies `k, k+1, ..., k+n`. -/
def entriesFrom (pages : Nat → Except MochiAPIErr PaginatedResult) :
    Nat → Nat → Nat
  | k, 0 => pageEntries (pages k)
  | k, n + 1 => pageEntries (pages k) + entriesFrom pages (k + 1) n

/-- A deck item carrying an identifier, for the pagination scenarios. -/
def c2deck : JSON := .obj [("id", .str "d")]

/-- The catalog entry the loop derives from `c2deck`. -/
def c2res : Resource :=
  { name := "d", uri := "mochi://deck/d", description := none, annotated := false }

/-- Upstream stub of the spec's pagination scenario: three pages of 200, 200
and 150 identifiable items (550 raw items in total), with a cursor after the
first two pages; any request past the third page would fail. -/
def c2pages : Nat → Except MochiAPIErr PaginatedResult
  | 0 => .ok ⟨List.replicate 200 c2deck, some "c1"⟩
  | 1 => .ok ⟨List.replicate 200 c2deck, some "c2"⟩
  | 2 => .ok ⟨List.replicate 150 c2deck, none⟩
  | _ => .error (.api "page past the end")

/-- Upstream stub in which every page carries a cursor, so that only the
500-entry cap can stop the loop; a fourth request would fail. -/
def c2pagesCap : Nat → Except MochiAPIErr PaginatedResult
  | 0 => .ok ⟨List.replicate 200 c2deck, some "c1"⟩
  | 1 => .ok ⟨List.replicate 200 c2deck, some "c2"⟩
  | 2 => .ok ⟨List.replicate 150 c2deck, some "c3"⟩
  | _ => .error (.api "page past the cap")

/-- Upstream stub whose second request raises an upstream error. -/
def c5pages : Nat → Except MochiAPIErr PaginatedResult
  | 0 => .ok ⟨[c2deck], some "c"⟩
  | _ => .error (.api "boom")

/-- A deck item with no resolvable identifier (no `id`, `uuid` or `slug`). -/
def c3noId : JSON := .obj [("name", .str "untitled")]

/-- Adversarial upstream stub: every page carries a cursor and only
unidentifiable items, so neither stop condition of the loop is ever met. -/
def c3pages : Nat → Except MochiAPIErr PaginatedResult :=
  fun _ => .ok ⟨[c3noId], some "more"⟩

/-- Values rejected by `_require_str`: everything except non-empty strings,
integers and booleans. -/
def requireStrBad : JSON → Bool
  | .str s => s.isEmpty
  | .bool _ => false
  | .num _ => false
  | _ => true

/-! ## Lemmas and claim theorems -/

/-- Item extraction yields no items when neither the collection key nor
`items` is bound to an array in the container. -/
lemma itemsOf_eq_nil (c : List (String × JSON)) (k : String)
    (hk : boundToArray c k = false) (hi : boundToArray c "items" = false) :
    itemsOf c k = [] := by
  unfold boundToArray at hk hi
  unfold itemsOf
  cases hck : List.lookup k c with
  | none =>
    cases hci : List.lookup "items" c with
    | none => simp
    | some v => cases v <;> simp_all
  | some v =>
    cases v <;> simp_all <;>
      (cases hci : List.lookup "items" c with
        | none => simp
        | some w => cases w <;> simp_all)

/-- Truthiness-based and code cursor extraction agree. -/
lemma codeNextCursor_eq_amended (c : List (String × JSON)) :
    codeNextCursor c = amendedNextCursor c := by
  unfold codeNextCursor amendedNextCursor
  cases hnc : pyGet c "nextCursor" with
  | str s => by_cases hs : s.isEmpty <;> simp [truthy, hs]
  | bool b => cases b <;> simp [truthy]
  | num n =>
    by_cases hn : n = 0 <;> simp [truthy, hn]
  | arr xs =>
    cases xs <;> simp [truthy]
  | obj fs =>
    cases fs <;> simp [truthy]
  | null => simp [truthy]

/-- A mapping input always takes one of the three `.ok` branches of
`_parse_item`. -/
lemma parseItem_obj_ok (fs : List (String × JSON)) (k : String) :
    ∃ r, parseItem (JSON.obj fs) k = .ok r := by
  unfold parseItem
  repeat' split
  all_goals exact ⟨_, rfl⟩

/-- C1, counterexample: on the container
`{"nextCursor": 42, "cursor": "abc"}` the claimed rule produces the fallback
cursor `"abc"`, but `_parse_paginated` produces no cursor at all — the
truthy non-string `nextCursor` value wins the Python `or` and then fails the
string check, so the `cursor` field is never consulted. -/
theorem claim1_counterexample :
    specNextCursor [("nextCursor", JSON.num 42), ("cursor", JSON.str "abc")] = some "abc" ∧
    (parsePaginated (JSON.obj [("nextCursor", JSON.num 42), ("cursor", JSON.str "abc")])
      "decks").next_cursor = none :=
  ⟨rfl, rfl⟩

/-- C1, amended: `next_cursor` is the `nextCursor` value of the container
when that value is truthy and a string (truthy strings are exactly the
non-empty ones); when the `nextCursor` value is falsy the rule falls back to
the `cursor` field, used only when a non-empty string; a truthy non-string
`nextCursor` suppresses the fallback and yields an absent cursor. -/
theorem claim1_next_cursor_amended (fs : List (String × JSON)) (k : String) :
    (parsePaginated (.obj fs) k).next_cursor = amendedNextCursor (containerOf fs) :=
  codeNextCursor_eq_amended (containerOf fs)

/-- C7, counterexample: an object with no recognized arrays does yield empty
items, but its cursor fields are still honored, so the page is not returned
"with absent cursor" as the claim states. -/
theorem claim7_counterexample :
    (parsePaginated (JSON.obj [("nextCursor", JSON.str "x")]) "decks").items = [] ∧
    (parsePaginated (JSON.obj [("nextCursor", JSON.str "x")]) "decks").next_cursor ≠ none :=
  ⟨rfl, fun h => Option.noConfusion h⟩

/-- C7, amended: `normalize_page` is total by construction (it is a function
into `PaginatedResult` on all of `JSON`); a scalar top-level value yields the
empty page with absent cursor, and an object whose container binds neither
the collection key nor `items` to an array yields empty items (though such
an object may still carry a cursor). -/
theorem claim7_total_worst_case :
    (∀ (j : JSON) (k : String), isScalar j = true → parsePaginated j k = ⟨[], none⟩) ∧
    (∀ (fs : List (String × JSON)) (k : String),
      boundToArray (containerOf fs) k = false →
      boundToArray (containerOf fs) "items" = false →
      (parsePaginated (.obj fs) k).items = []) := by
  constructor
  · intro j k hj
    cases j with
    | null => rfl
    | bool b => rfl
    | num n => rfl
    | str s => rfl
    | arr xs => exact Bool.noConfusion hj
    | obj fs => exact Bool.noConfusion hj
  · intro fs k hk hi
    exact itemsOf_eq_nil (containerOf fs) k hk hi

/-- C7, witness: the amended theorem applied to the scalar `7` and to the
array-free object of the counterexample. -/
theorem claim7_witness :
    parsePaginated (JSON.num 7) "decks" = ⟨[], none⟩ ∧
    (parsePaginated (JSON.obj [("nextCursor", JSON.str "x")]) "decks").items = [] :=
  ⟨claim7_total_worst_case.1 (JSON.num 7) "decks" rfl,
    claim7_total_worst_case.2 [("nextCursor", JSON.str "x")] "decks" rfl rfl⟩

/-- C8: `normalize_item` fails with the `MalformedResponse` error exactly on
non-mapping inputs — every scalar or array input raises, and every object
input takes one of the three `.ok` branches. -/
theorem claim8_parseItem_error_iff_not_obj (j : JSON) (k : String) :
    parseItem j k = .error (.api "Unexpected response format from Mochi API") ↔
      isObj j = false := by
  cases j with
  | obj fs =>
    apply iff_of_false
    · intro h
      obtain ⟨r, hr⟩ := parseItem_obj_ok fs k
      rw [hr] at h
      exact Except.noConfusion h
    · exact fun h => Bool.noConfusion h
  | null => exact iff_of_true rfl rfl
  | bool b => exact iff_of_true rfl rfl
  | num n => exact iff_of_true rfl rfl
  | str s => exact iff_of_true rfl rfl
  | arr xs => exact iff_of_true rfl rfl

/-- C10: when the `data` field holds an array (not an object), the top-level
object remains the container, so with neither the collection key nor `items`
bound to a top-level array the page has no items — the array under `data` is
never used as the item source. -/
theorem claim10_data_array_never_items (fs : List (String × JSON))
    (xs : List JSON) (k : String)
    (hdata : List.lookup "data" fs = some (.arr xs))
    (hk : boundToArray fs k = false)
    (hitems : boundToArray fs "items" = false) :
    (parsePaginated (.obj fs) k).items = [] := by
  have hc : containerOf fs = fs := by unfold containerOf; rw [hdata]
  show itemsOf (containerOf fs) k = []
  rw [hc]
  exact itemsOf_eq_nil fs k hk hitems

/-- C9: for an input dict `{K: O}` with `O` itself a dict, `_parse_item`
returns a fresh address, distinct from the address of `O`, holding the same
top-level bindings as `O`; mutating a field of the returned dict leaves the
dict `O` of the input untouched. -/
theorem claim9_parseItem_shallow_copy
    (h : Heap) (a b : Nat) (key : String) (fs bfs : List (String × HVal))
    (ha : h.find a = some fs)
    (hkey : List.lookup key fs = some (.ref b))
    (hb : h.find b = some bfs) :
    ∃ h2 c, parseItemH h (.ref a) key = .ok (h2, c) ∧
      c ≠ b ∧
      h2.find c = some bfs ∧
      ∀ (k : String) (v : HVal), (h2.setField c k v).find b = some bfs := by
  have hblt : b < h.objs.length := by
    obtain ⟨hlt, -⟩ := List.get?_eq_some.mp hb
    exact hlt
  refine ⟨⟨h.objs ++ [bfs]⟩, h.objs.length, ?_, ?_, ?_, ?_⟩
  · unfold parseItemH
    simp [ha, hkey, hb, Heap.alloc]
  · intro hcb
    omega
  · show (h.objs ++ [bfs]).get? h.objs.length = some bfs
    exact List.get?_concat_length h.objs bfs
  · intro k v
    show ((h.objs ++ [bfs]).set h.objs.length _).get? b = some bfs
    rw [List.get?_set_ne _ _ (by omega)]
    rw [List.get?_append hblt]
    exact hb

/-- C9, witness: the theorem applied to a two-dict heap holding the payload
`{"note": {"id": "n1"}}`. -/
theorem claim9_witness :
    ∃ h2 c,
      parseItemH ⟨[[("note", HVal.ref 1)], [("id", HVal.prim (JSON.str "n1"))]]⟩
        (HVal.ref 0) "note" = .ok (h2, c) ∧ c ≠ 1 ∧
      h2.find c = some [("id", HVal.prim (JSON.str "n1"))] ∧
      ∀ (k : String) (v : HVal),
        (h2.setField c k v).find 1 = some [("id", HVal.prim (JSON.str "n1"))] :=
  claim9_parseItem_shallow_copy
    ⟨[[("note", HVal.ref 1)], [("id", HVal.prim (JSON.str "n1"))]]⟩
    0 1 "note" [("note", HVal.ref 1)] [("id", HVal.prim (JSON.str "n1"))]
    rfl rfl rfl

/-- C10, witness: an object whose `data` field is an array of deck objects
still normalizes to an empty item list. -/
theorem claim10_witness :
    (parsePaginated (JSON.obj [("data", JSON.arr [JSON.obj [("id", JSON.str "d1")]])])
      "decks").items = [] :=
  claim10_data_array_never_items
    [("data", JSON.arr [JSON.obj [("id", JSON.str "d1")]])]
    [JSON.obj [("id", JSON.str "d1")]] "decks" rfl rfl rfl

/-- C2: the catalog never exceeds the 500-entry cap — the final truncation
hard-caps the returned sequence — and on the spec's three-page stub with 550
identifiable items in total the loop returns exactly 500 entries after 3
requests; on a stub where every page carries a cursor, the loop still stops
after the page that pushed the accumulator over the cap (3 requests, and the
erroring fourth page is never fetched, the result being a success). -/
theorem claim2_catalog_cap :
    (∀ (pages : Nat → Except MochiAPIErr PaginatedResult) (fuel : Nat)
        (rs : List Resource),
      listResources pages fuel = some (.ok rs) →
        rs.length ≤ MAX_DECK_RESOURCES) ∧
    Option.map (Except.map List.length) (listResources c2pages 10) =
      some (.ok 500) ∧
    requestCount (listResourcesLoop c2pages 10 0 []) = some 3 ∧
    Option.map (Except.map List.length) (listResources c2pagesCap 10) =
      some (.ok 500) ∧
    requestCount (listResourcesLoop c2pagesCap 10 0 []) = some 3 := by
  refine ⟨?_, rfl, rfl, rfl, rfl⟩
  intro pages fuel rs hres
  unfold listResources at hres
  cases hl : listResourcesLoop pages fuel 0 [] with
  | none => rw [hl] at hres; exact Option.noConfusion hres
  | some r =>
    cases r with
    | error e => rw [hl] at hres; simp at hres
    | ok p =>
      obtain ⟨rs0, n⟩ := p
      rw [hl] at hres
      simp only [Option.some.injEq, Except.ok.injEq] at hres
      rw [← hres]
      exact List.length_take_le _ _

/-- C2, witness: the cap bound applied to a stub that stops immediately. -/
theorem claim2_witness : ([] : List Resource).length ≤ MAX_DECK_RESOURCES :=
  claim2_catalog_cap.1 (fun _ => .ok ⟨[], none⟩) 1 [] rfl

/-- C5: an upstream error at any requested page makes the loop return exactly
that error, whatever has been accumulated so far; the wrapper then surfaces
the error, so no partial catalog is returned — as on the spec's stub whose
second page fails. -/
theorem claim5_upstream_error_aborts :
    (∀ (pages : Nat → Except MochiAPIErr PaginatedResult) (fuel k : Nat)
        (acc : List Resource) (e : MochiAPIErr),
      pages k = .error e →
        listResourcesLoop pages (fuel + 1) k acc = some (.error e)) ∧
    (∀ (pages : Nat → Except MochiAPIErr PaginatedResult) (fuel : Nat)
        (e : MochiAPIErr),
      listResourcesLoop pages fuel 0 [] = some (.error e) →
        listResources pages fuel = some (.error e)) ∧
    listResources c5pages 10 = some (.error (.api "boom")) := by
  refine ⟨?_, ?_, rfl⟩
  · intro pages fuel k acc e he
    unfold listResourcesLoop
    rw [he]
  · intro pages fuel e hl
    unfold listResources
    rw [hl]

/-- C5, witness: the abort lemma applied to a first page that fails, with a
non-empty accumulator that is indeed discarded. -/
theorem claim5_witness :
    listResourcesLoop (fun _ => .error (.api "x")) 1 0 [c2res] =
      some (.error (.api "x")) :=
  claim5_upstream_error_aborts.1 (fun _ => .error (.api "x")) 0 0 [c2res]
    (.api "x") rfl

/-- On the adversarial stub the accumulator never grows, so the loop runs out
of any amount of fuel, from any request index. -/
lemma c3pages_loop_none : ∀ (fuel k : Nat),
    listResourcesLoop c3pages fuel k [] = none := by
  intro fuel
  induction fuel with
  | zero => intro k; rfl
  | succ f ih =>
    intro k
    have hd : deckToResource c3noId = none := rfl
    simp [listResourcesLoop, c3pages, cursorFalsy, MAX_DECK_RESOURCES, hd]
    exact ih (k + 1)

/-- C3, counterexample: on an upstream whose every page carries a cursor and
only unidentifiable items, the pagination loop never reaches either stop
condition — it does not terminate after finitely many requests (no amount of
fuel makes it return). -/
theorem claim3_counterexample :
    ¬ ∃ fuel : Nat, (listResources c3pages fuel).isSome = true := by
  rintro ⟨fuel, hf⟩
  unfold listResources at hf
  rw [c3pages_loop_none fuel 0] at hf
  exact Bool.noConfusion hf

/-- If some reply within the next `n` requests carries a stop signal, or the
identifiable entries accumulated through it reach the cap, the loop halts. -/
lemma listResourcesLoop_isSome (pages : Nat → Except MochiAPIErr PaginatedResult) :
    ∀ (n fuel k : Nat) (acc : List Resource), n < fuel →
    (stopSignal (pages (k + n)) ∨
      MAX_DECK_RESOURCES ≤ acc.length + entriesFrom pages k n) →
    (listResourcesLoop pages fuel k acc).isSome = true := by
  intro n
  induction n with
  | zero =>
    intro fuel k acc hfuel hstop
    obtain ⟨f, rfl⟩ : ∃ f, fuel = f + 1 := ⟨fuel - 1, by omega⟩
    rw [Nat.add_zero] at hstop
    unfold listResourcesLoop
    cases hp : pages k with
    | error e => rfl
    | ok page =>
      have hpe : pageEntries (pages k) =
          (List.filterMap deckToResource page.items).length := by
        rw [hp]
        rfl
      have hentries : entriesFrom pages k 0 = pageEntries (pages k) := rfl
      show (if (cursorFalsy page.next_cursor ||
            decide (MAX_DECK_RESOURCES ≤
              (acc ++ List.filterMap deckToResource page.items).length)) = true
          then some (Except.ok (acc ++ List.filterMap deckToResource page.items, k + 1))
          else listResourcesLoop pages f (k + 1)
            (acc ++ List.filterMap deckToResource page.items)).isSome = true
      rw [if_pos ?_]
      · rfl
      · rcases hstop with hs | hcap
        · rw [hp] at hs
          unfold stopSignal at hs
          simp [hs]
        · simp only [Bool.or_eq_true, decide_eq_true_eq, List.length_append]
          right
          omega
  | succ n ih =>
    intro fuel k acc hfuel hstop
    obtain ⟨f, rfl⟩ : ∃ f, fuel = f + 1 := ⟨fuel - 1, by omega⟩
    unfold listResourcesLoop
    cases hp : pages k with
    | error e => rfl
    | ok page =>
      have hpe : pageEntries (pages k) =
          (List.filterMap deckToResource page.items).length := by
        rw [hp]
        rfl
      have hentries : entriesFrom pages k (n + 1) =
          pageEntries (pages k) + entriesFrom pages (k + 1) n := rfl
      show (if (cursorFalsy page.next_cursor ||
            decide (MAX_DECK_RESOURCES ≤
              (acc ++ List.filterMap deckToResource page.items).length)) = true
          then some (Except.ok (acc ++ List.filterMap deckToResource page.items, k + 1))
          else listResourcesLoop pages f (k + 1)
            (acc ++ List.filterMap deckToResource page.items)).isSome = true
      by_cases hc : (cursorFalsy page.next_cursor ||
          decide (MAX_DECK_RESOURCES ≤
            (acc ++ List.filterMap deckToResource page.items).length)) = true
      · rw [if_pos hc]
        rfl
      · rw [if_neg hc]
        apply ih f (k + 1) (acc ++ List.filterMap deckToResource page.items) (by omega)
        rcases hstop with hs | hcap
        · left
          have harith : k + (n + 1) = (k + 1) + n := by omega
          rw [harith] at hs
          exact hs
        · right
          rw [List.length_append]
          omega

/-- C3, amended: the pagination loop terminates whenever some finite prefix
of the upstream reply stream contains a stop signal (an error, or a page
with absent or empty cursor) or accumulates at least 500 identifiable
entries; on a stream in which every page carries a non-empty cursor and
contributes no identifiable entry (see the counterexample) the loop requests
pages forever. -/
theorem claim3_terminates_amended
    (pages : Nat → Except MochiAPIErr PaginatedResult) (n fuel : Nat)
    (hfuel : n < fuel)
    (hstop : stopSignal (pages n) ∨ MAX_DECK_RESOURCES ≤ entriesFrom pages 0 n) :
    (listResources pages fuel).isSome = true := by
  have h := listResourcesLoop_isSome pages n fuel 0 [] hfuel (by simpa using hstop)
  unfold listResources
  cases hl : listResourcesLoop pages fuel 0 [] with
  | none => rw [hl] at h; exact Bool.noConfusion h
  | some r => cases r with
    | error e => rfl
    | ok p => obtain ⟨rs, m⟩ := p; rfl

/-- C3, witness: a stream whose first page already carries no cursor makes
the loop terminate within one request. -/
theorem claim3_witness :
    (listResources (fun _ => .ok ⟨[], none⟩) 1).isSome = true :=
  claim3_terminates_amended (fun _ => .ok ⟨[], none⟩) 0 1 (by omega) (Or.inl rfl)

/-- Values classified as bad by `requireStrBad` make `_require_str` raise. -/
lemma require_str_error (args : List (String × JSON)) (f : String)
    (h : requireStrBad (pyGet args f) = true) :
    require_str args f = .error (.validation f) := by
  cases hv : pyGet args f <;> simp_all [require_str, requireStrBad]

/-- Non-mapping values make `_require_mapping` raise. -/
lemma require_mapping_error (args : List (String × JSON)) (f : String)
    (h : isObj (pyGet args f) = false) :
    require_mapping args f = .error (.validation f) := by
  cases hv : pyGet args f <;> simp_all [require_mapping, isObj]

/-- C4, counterexample: an integer bound to the required string field
`deck_id` is of the wrong type by the claim, yet no ValidationError is
raised — `_require_str` coerces it with `str` and the invocation goes on to
issue an upstream request. -/
theorem claim4_counterexample :
    callTool false "get_deck" [("deck_id", JSON.num 7)] = .ok (.getDeck "7") :=
  rfl

/-- An `.ok` scrutinee passes its payload to the continuation of a tool
`do`-block. -/
lemma toolBindOk {α β : Type} (a : α) (f : α → Except ToolError β) :
    (Except.ok a : Except ToolError α) >>= f = f a := rfl

/-- An `.error` scrutinee short-circuits the continuation of a tool
`do`-block. -/
lemma toolBindError {α β : Type} (e : ToolError) (f : α → Except ToolError β) :
    (Except.error e : Except ToolError α) >>= f = .error e := rfl

/-- C4, amended: for every tool invocation in which a required string field
is missing, empty, or neither a string nor an integer (Python booleans
counting as integers — integers are accepted and coerced with `str`), or a
required object field holds a non-object, a ValidationError is raised
before any upstream call is made: one conjunct per required field of each
tool — `get_deck.deck_id`, `get_note.note_id`, `create_deck.name`,
`create_deck.fields` (validated whenever present), `update_deck.deck_id`,
`update_deck.fields`, `delete_deck.deck_id`, `create_note.deck_id`,
`create_note.fields`, `update_note.note_id`, `update_note.fields` and
`delete_note.note_id` (`list_decks` and `list_notes` have no required
field).  In this model an `.error` result is exactly an invocation that
issued zero upstream requests, the single upstream call living only in the
`.ok` constructor. -/
theorem claim4_validation_before_upstream :
    (∀ (ro : Bool) (args : List (String × JSON)),
      requireStrBad (pyGet args "deck_id") = true →
      callTool ro "get_deck" args = .error (.validation "deck_id")) ∧
    (∀ (ro : Bool) (args : List (String × JSON)),
      requireStrBad (pyGet args "note_id") = true →
      callTool ro "get_note" args = .error (.validation "note_id")) ∧
    (∀ (args : List (String × JSON)),
      requireStrBad (pyGet args "name") = true →
      callTool false "create_deck" args = .error (.validation "name")) ∧
    (∀ (args : List (String × JSON)) (s : String),
      require_str args "name" = .ok s →
      (List.lookup "fields" args).isSome = true →
      isObj (pyGet args "fields") = false →
      callTool false "create_deck" args = .error (.validation "fields")) ∧
    (∀ (args : List (String × JSON)),
      requireStrBad (pyGet args "deck_id") = true →
      callTool false "update_deck" args = .error (.validation "deck_id")) ∧
    (∀ (args : List (String × JSON)) (s : String),
      require_str args "deck_id" = .ok s →
      isObj (pyGet args "fields") = false →
      callTool false "update_deck" args = .error (.validation "fields")) ∧
    (∀ (args : List (String × JSON)),
      requireStrBad (pyGet args "deck_id") = true →
      callTool false "delete_deck" args = .error (.validation "deck_id")) ∧
    (∀ (args : List (String × JSON)),
      requireStrBad (pyGet args "deck_id") = true →
      callTool false "create_note" args = .error (.validation "deck_id")) ∧
    (∀ (args : List (String × JSON)) (s : String),
      require_str args "deck_id" = .ok s →
      isObj (pyGet args "fields") = false →
      callTool false "create_note" args = .error (.validation "fields")) ∧
    (∀ (args : List (String × JSON)),
      requireStrBad (pyGet args "note_id") = true →
      callTool false "update_note" args = .error (.validation "note_id")) ∧
    (∀ (args : List (String × JSON)) (s : String),
      require_str args "note_id" = .ok s →
      isObj (pyGet args "fields") = false →
      callTool false "update_note" args = .error (.validation "fields")) ∧
    (∀ (args : List (String × JSON)),
      requireStrBad (pyGet args "note_id") = true →
      callTool false "delete_note" args = .error (.validation "note_id")) := by
  refine ⟨?_, ?_, ?_, ?_, ?_, ?_, ?_, ?_, ?_, ?_, ?_, ?_⟩
  · intro ro args h
    have he := require_str_error args "deck_id" h
    simp [callTool, he, toolBindError]
  · intro ro args h
    have he := require_str_error args "note_id" h
    simp [callTool, he, toolBindError]
  · intro args h
    have he := require_str_error args "name" h
    simp [callTool, he, toolBindError]
  · intro args s hs hp hf
    have he := require_mapping_error args "fields" hf
    simp [callTool, hs, hp, he, toolBindOk, toolBindError]
  · intro args h
    have he := require_str_error args "deck_id" h
    simp [callTool, he, toolBindError]
  · intro args s hs hf
    have he := require_mapping_error args "fields" hf
    simp [callTool, hs, he, toolBindOk, toolBindError]
  · intro args h
    have he := require_str_error args "deck_id" h
    simp [callTool, he, toolBindError]
  · intro args h
    have he := require_str_error args "deck_id" h
    simp [callTool, he, toolBindError]
  · intro args s hs hf
    have he := require_mapping_error args "fields" hf
    simp [callTool, hs, he, toolBindOk, toolBindError]
  · intro args h
    have he := require_str_error args "note_id" h
    simp [callTool, he, toolBindError]
  · intro args s hs hf
    have he := require_mapping_error args "fields" hf
    simp [callTool, hs, he, toolBindOk, toolBindError]
  · intro args h
    have he := require_str_error args "note_id" h
    simp [callTool, he, toolBindError]

/-- C4, witness: the amended theorem applied, for every tool, to a concrete
invocation with a missing, empty, or wrongly-typed required field. -/
theorem claim4_witness :
    callTool true "get_deck" [] = .error (.validation "deck_id") ∧
    callTool false "get_note" [("note_id", JSON.str "")] =
      .error (.validation "note_id") ∧
    callTool false "create_deck" [("name", JSON.obj [])] =
      .error (.validation "name") ∧
    callTool false "create_deck" [("name", JSON.str "n"), ("fields", JSON.arr [])] =
      .error (.validation "fields") ∧
    callTool false "update_deck" [("deck_id", JSON.null)] =
      .error (.validation "deck_id") ∧
    callTool false "update_deck" [("deck_id", JSON.str "d"), ("fields", JSON.num 3)] =
      .error (.validation "fields") ∧
    callTool false "delete_deck" [] = .error (.validation "deck_id") ∧
    callTool false "create_note" [("fields", JSON.obj [])] =
      .error (.validation "deck_id") ∧
    callTool false "create_note" [("deck_id", JSON.str "d")] =
      .error (.validation "fields") ∧
    callTool false "update_note" [("note_id", JSON.arr [JSON.num 1])] =
      .error (.validation "note_id") ∧
    callTool false "update_note" [("note_id", JSON.str "n"), ("fields", JSON.str "x")] =
      .error (.validation "fields") ∧
    callTool false "delete_note" [("note_id", JSON.arr [])] =
      .error (.validation "note_id") :=
  ⟨claim4_validation_before_upstream.1 true [] rfl,
    claim4_validation_before_upstream.2.1 false [("note_id", JSON.str "")] rfl,
    claim4_validation_before_upstream.2.2.1 [("name", JSON.obj [])] rfl,
    claim4_validation_before_upstream.2.2.2.1
      [("name", JSON.str "n"), ("fields", JSON.arr [])] "n" rfl rfl rfl,
    claim4_validation_before_upstream.2.2.2.2.1 [("deck_id", JSON.null)] rfl,
    claim4_validation_before_upstream.2.2.2.2.2.1
      [("deck_id", JSON.str "d"), ("fields", JSON.num 3)] "d" rfl rfl,
    claim4_validation_before_upstream.2.2.2.2.2.2.1 [] rfl,
    claim4_validation_before_upstream.2.2.2.2.2.2.2.1 [("fields", JSON.obj [])] rfl,
    claim4_validation_before_upstream.2.2.2.2.2.2.2.2.1
      [("deck_id", JSON.str "d")] "d" rfl rfl,
    claim4_validation_before_upstream.2.2.2.2.2.2.2.2.2.1
      [("note_id", JSON.arr [JSON.num 1])] rfl,
    claim4_validation_before_upstream.2.2.2.2.2.2.2.2.2.2.1
      [("note_id", JSON.str "n"), ("fields", JSON.str "x")] "n" rfl rfl,
    claim4_validation_before_upstream.2.2.2.2.2.2.2.2.2.2.2
      [("note_id", JSON.arr [])] rfl⟩

/-- C6: with the read-only switch on, each of the six write operation names
is refused with the "Unknown tool" failure — the refusal happens before the
write dispatch, so the invocation issues zero upstream calls (an `.error`
result of this model carries no upstream request). -/
theorem claim6_read_only_refuses_writes (args : List (String × JSON)) :
    callTool true "create_deck" args = .error (.unknownTool "create_deck") ∧
    callTool true "update_deck" args = .error (.unknownTool "update_deck") ∧
    callTool true "delete_deck" args = .error (.unknownTool "delete_deck") ∧
    callTool true "create_note" args = .error (.unknownTool "create_note") ∧
    callTool true "update_note" args = .error (.unknownTool "update_note") ∧
    callTool true "delete_note" args = .error (.unknownTool "delete_note") :=
  ⟨rfl, rfl, rfl, rfl, rfl, rfl⟩

end MochiMcp
